import Mathlib

/-!
Shallow embedding of the IRMS risk-assessment engine
(`src/modules/risk_assessor.py` together with the risk-related constants of
`src/config/settings.py`), with theorems checking the natural-language
specification against it.

Python floats are modelled as rationals (`ℚ`); the decimal literals of the
source (`0.1`, `0.3`, `0.8`, ...) are taken at their decimal value.  Python
dictionaries with `.get(key, default)` access are modelled as structures with
`Option` fields read through `Option.getD`.  A Python expression that raises
(`ZeroDivisionError`) is modelled as `Option.none`.
-/

namespace IRMS

/-- The `complexity` sub-dictionary of a static-analysis report
(`analysis['complexity']`): `average` is the mean cyclomatic complexity
(a float), `high_complexity_count` the number of functions above the
complexity threshold (a count).  A field is `none` when the key is absent. -/
structure ComplexityInfo where
  average : Option ℚ
  high_complexity_count : Option ℕ
deriving DecidableEq

/-- One entry of the `issues` list of an analysis report; only the
`severity` key is read by the risk assessor, absent key modelled as `none`. -/
structure Issue where
  severity : Option String
deriving DecidableEq

/-- The analysis dictionary consumed by `RiskAssessor`: the keys
`complexity` and `issues` as read via `.get('complexity', {})` and
`.get('issues', [])`. -/
structure AnalysisReport where
  complexity : Option ComplexityInfo
  issues : Option (List Issue)
deriving DecidableEq

/-- The change-statistics dictionary produced by
`ChangeDetector._calculate_diff_stats` and consumed by
`RiskAssessor._assess_change_volume_risk`; both fields are line/change
counts (Python ints obtained from `len` and sums of counts). -/
structure ChangeStats where
  total_changes : Option ℕ
  original_lines : Option ℕ
deriving DecidableEq

/-- The `RISK_WEIGHTS` dictionary of `src/config/settings.py`. -/
structure RiskWeights where
  complexity_change : ℚ
  lines_changed : ℚ
  critical_functions : ℚ
  security_issues : ℚ
deriving DecidableEq

/-- Default weights from `src/config/settings.py`:
`{'complexity_change': 0.3, 'lines_changed': 0.2, 'critical_functions': 0.3,
'security_issues': 0.2}`. -/
def RISK_WEIGHTS : RiskWeights :=
  { complexity_change := 3/10
    lines_changed := 1/5
    critical_functions := 3/10
    security_issues := 1/5 }

/-- Sum of the four configured weights. -/
def RiskWeights.sum (w : RiskWeights) : ℚ :=
  w.complexity_change + w.lines_changed + w.critical_functions + w.security_issues

/-- Embedding of the configuration load of the risk weights: importing
`src/config/settings.py` simply binds the `RISK_WEIGHTS` dictionary literal.
No check of the weight sum appears anywhere in the module (or in
`RiskAssessor`), so loading any weight table succeeds. -/
def loadRiskWeights (w : RiskWeights) : Except String RiskWeights :=
  Except.ok w

/-- The `RISK_GATES` dictionary of `src/config/settings.py`. -/
structure RiskGates where
  PASS : ℚ
  WARN : ℚ
  BLOCK : ℚ
deriving DecidableEq

/-- Default gate thresholds: `{'PASS': 30, 'WARN': 70, 'BLOCK': 100}`. -/
def RISK_GATES : RiskGates := { PASS := 30, WARN := 70, BLOCK := 100 }

/-- Gate decision values returned by `RiskAssessor._make_gate_decision`. -/
inductive Gate where
  | PASS
  | WARN
  | BLOCK
deriving DecidableEq, Repr

/-- `RiskAssessor._assess_complexity_risk`:
`min(avg/20, 1.0) + min(high_complexity_count * 0.1, 0.3)` capped at `1.0`,
with missing keys defaulting to `{}` resp. `0`. -/
def assessComplexityRisk (analysis : AnalysisReport) : ℚ :=
  let complexity := analysis.complexity.getD ⟨none, none⟩
  let avg_complexity := complexity.average.getD 0
  let high_complexity_count := complexity.high_complexity_count.getD 0
  let complexity_score := min (avg_complexity / 20) 1
  let high_complexity_penalty := min ((high_complexity_count : ℚ) * (1/10)) (3/10)
  min (complexity_score + high_complexity_penalty) 1

/-- `RiskAssessor._assess_change_volume_risk`:
`min(total_changes / original_lines, 1.0)` with dictionary defaults
`total_changes → 0`, `original_lines → 1`.  When the effective
`original_lines` is `0`, the Python division raises `ZeroDivisionError`,
modelled as `none`. -/
def assessChangeVolumeRisk (change_stats : ChangeStats) : Option ℚ :=
  let total_changes := change_stats.total_changes.getD 0
  let original_lines := change_stats.original_lines.getD 1
  if original_lines = 0 then none
  else some (min ((total_changes : ℚ) / (original_lines : ℚ)) 1)

/-- Character-list prefix test (`a` matches the start of `b`). -/
def charsMatchAt : List Char → List Char → Bool
  | [], _ => true
  | _ :: _, [] => false
  | a :: as, b :: bs => a == b && charsMatchAt as bs

/-- Substring test on character lists: Python's `needle in hay`. -/
def hasSubstring (needle : List Char) : List Char → Bool
  | [] => needle.isEmpty
  | c :: rest => charsMatchAt needle (c :: rest) || hasSubstring needle rest

/-- The `critical_keywords` list of
`RiskAssessor._assess_critical_function_risk`. -/
def criticalKeywords : List String :=
  ["security", "auth", "password", "token", "database",
   "sql", "query", "encrypt", "decrypt", "validate"]

/-- One iteration of the keyword scan: `change.lower()` followed by
`any(keyword in change_lower for keyword in critical_keywords)`.
Lowercasing maps `Char.toLower` over the characters (ASCII case folding,
which covers the all-ASCII keywords of the source). -/
def isCriticalChange (change : String) : Bool :=
  let change_lower := change.data.map Char.toLower
  criticalKeywords.any fun keyword => hasSubstring keyword.data change_lower

/-- `RiskAssessor._assess_critical_function_risk`: count the change
descriptions containing a critical keyword, return `0.0` on an empty list,
else `min(count / len, 1.0)`. -/
def assessCriticalFunctionRisk (ai_changes : List String) : ℚ :=
  let critical_change_count := (ai_changes.filter isCriticalChange).length
  if ai_changes.isEmpty then 0
  else min ((critical_change_count : ℚ) / (ai_changes.length : ℚ)) 1

/-- The `severity_scores` dictionary of
`RiskAssessor._assess_issue_severity_risk`. -/
def severity_scores : List (String × ℚ) :=
  [("critical", 1), ("high", 4/5), ("medium", 1/2), ("low", 1/5), ("info", 1/10)]

/-- Per-issue weight: `severity_scores.get(issue.get('severity', 'low'), 0.2)`. -/
def issueWeight (issue : Issue) : ℚ :=
  (severity_scores.lookup (issue.severity.getD "low")).getD (1/5)

/-- `RiskAssessor._assess_issue_severity_risk`: `0.0` when the issue list is
empty, otherwise the mean of the per-issue weights capped at `1.0`. -/
def assessIssueSeverityRisk (analysis : AnalysisReport) : ℚ :=
  let issues := analysis.issues.getD []
  if issues.isEmpty then 0
  else
    let total_severity := (issues.map issueWeight).sum
    min (total_severity / (issues.length : ℚ)) 1

/-- `RiskAssessor._make_gate_decision`: strict comparison against the
`PASS` and `WARN` thresholds. -/
def makeGateDecision (risk_score : ℚ) : Gate :=
  if risk_score < RISK_GATES.PASS then Gate.PASS
  else if risk_score < RISK_GATES.WARN then Gate.WARN
  else Gate.BLOCK

/-- Python's `round` to an integer: nearest integer, ties to even. -/
def pythonRound (x : ℚ) : ℤ :=
  if x - ⌊x⌋ < 1/2 then ⌊x⌋
  else if 1/2 < x - ⌊x⌋ then ⌊x⌋ + 1
  else if ⌊x⌋ % 2 = 0 then ⌊x⌋ else ⌊x⌋ + 1

/-- Python's `round(x, 2)`. -/
def round2 (x : ℚ) : ℚ :=
  (pythonRound (x * 100) : ℚ) / 100

/-- Test for `issue.get('severity') in ['medium', 'high', 'critical']`
(a missing key yields `None`, which is in no list). -/
def isMediumHighIssue (issue : Issue) : Bool :=
  match issue.severity with
  | some s => s == "medium" || s == "high" || s == "critical"
  | none => false

/-- `RiskAssessor._generate_recommendations`: ordered advisory strings
appended as thresholds are crossed. -/
def generateRecommendations (total_risk complexity_risk change_volume_risk : ℚ)
    (analysis : AnalysisReport) : List String :=
  let base :=
    if total_risk < 30 then ["✓ Low risk changes - safe to proceed"]
    else if total_risk < 70 then ["⚠ Medium risk changes - additional review recommended"]
    else ["⛔ High risk changes - thorough review required before deployment"]
  let withComplexity :=
    base ++ (if 7/10 < complexity_risk then ["Consider refactoring high complexity functions"] else [])
  let withVolume :=
    withComplexity ++
      (if 1/2 < change_volume_risk
       then ["Large volume of changes - consider breaking into smaller releases"] else [])
  let issues := analysis.issues.getD []
  let medium_high_issues := issues.filter isMediumHighIssue
  let withIssues :=
    withVolume ++
      (if medium_high_issues.isEmpty then []
       else ["Address " ++ toString medium_high_issues.length ++ " medium/high severity issues"])
  withIssues ++
    (if 40 < total_risk
     then ["Comprehensive testing recommended before deployment",
           "Consider adding additional unit tests for modified functions"] else [])

/-- The rounded ×100 component scores stored under `risk_components`. -/
structure RiskComponents where
  complexity_risk : ℚ
  change_volume_risk : ℚ
  critical_function_risk : ℚ
  issue_severity_risk : ℚ
deriving DecidableEq

/-- The per-file assessment dictionary returned by `RiskAssessor.assess_risk`. -/
structure RiskAssessment where
  filename : String
  risk_score : ℚ
  gate_decision : Gate
  risk_components : RiskComponents
  recommendations : List String
deriving DecidableEq

/-- The weighted 0-100 total of `RiskAssessor.assess_risk`:
`(cr*w_complexity + cvr*w_volume + cfr*w_critical + isr*w_issues) * 100`. -/
def totalRiskW (w : RiskWeights) (cr cvr cfr isr : ℚ) : ℚ :=
  (cr * w.complexity_change + cvr * w.lines_changed +
   cfr * w.critical_functions + isr * w.security_issues) * 100

/-- `RiskAssessor.assess_risk`, parametrized by the configured weight table
(the source reads the module constant `RISK_WEIGHTS`).  Returns `none` when
the change-volume scorer raises (`ZeroDivisionError`). -/
def assessRiskW (w : RiskWeights) (filename : String) (original_analysis : AnalysisReport)
    (change_stats : ChangeStats) (ai_changes : List String) : Option RiskAssessment :=
  let complexity_risk := assessComplexityRisk original_analysis
  match assessChangeVolumeRisk change_stats with
  | none => none
  | some change_volume_risk =>
    let critical_function_risk := assessCriticalFunctionRisk ai_changes
    let issue_severity_risk := assessIssueSeverityRisk original_analysis
    let total_risk :=
      totalRiskW w complexity_risk change_volume_risk critical_function_risk issue_severity_risk
    some
      { filename := filename
        risk_score := round2 total_risk
        gate_decision := makeGateDecision total_risk
        risk_components :=
          { complexity_risk := round2 (complexity_risk * 100)
            change_volume_risk := round2 (change_volume_risk * 100)
            critical_function_risk := round2 (critical_function_risk * 100)
            issue_severity_risk := round2 (issue_severity_risk * 100) }
        recommendations :=
          generateRecommendations total_risk complexity_risk change_volume_risk original_analysis }

/-- `RiskAssessor.assess_risk` with the configured default weights. -/
def assessRisk : String → AnalysisReport → ChangeStats → List String → Option RiskAssessment :=
  assessRiskW RISK_WEIGHTS

/-- The `gate_counts` dictionary of `RiskAssessor.get_overall_assessment`. -/
structure GateCounts where
  PASS : ℕ
  WARN : ℕ
  BLOCK : ℕ
deriving DecidableEq

/-- The dictionary returned by `RiskAssessor.get_overall_assessment` when
the store is non-empty. -/
structure OverallAssessment where
  files_assessed : ℕ
  average_risk_score : ℚ
  overall_gate_decision : Gate
  gate_counts : GateCounts
deriving DecidableEq

/-- `RiskAssessor.get_overall_assessment` over the values of the
`self.assessments` store.  The empty store returns the empty dictionary
`{}`, modelled as `none`. -/
def getOverallAssessment (assessments : List RiskAssessment) : Option OverallAssessment :=
  if assessments.isEmpty then none
  else
    let total_risk := (assessments.map (fun a => a.risk_score)).sum
    let avg_risk := total_risk / (assessments.length : ℚ)
    let gate_counts : GateCounts :=
      { PASS := (assessments.filter (fun a => a.gate_decision == Gate.PASS)).length
        WARN := (assessments.filter (fun a => a.gate_decision == Gate.WARN)).length
        BLOCK := (assessments.filter (fun a => a.gate_decision == Gate.BLOCK)).length }
    let overall_decision :=
      if 0 < gate_counts.BLOCK then Gate.BLOCK
      else if 0 < gate_counts.WARN then Gate.WARN
      else Gate.PASS
    some
      { files_assessed := assessments.length
        average_risk_score := round2 avg_risk
        overall_gate_decision := overall_decision
        gate_counts := gate_counts }

/-- A weight table whose entries sum to 2 instead of 1, used to exercise
the configuration load. -/
def misSummingWeights : RiskWeights := ⟨1/2, 1/2, 1/2, 1/2⟩

/-- A store of two assessments whose rounded scores are 0.01 and 0.02. -/
def twoFileStore : List RiskAssessment :=
  [{ filename := "a.py", risk_score := 1/100, gate_decision := Gate.PASS,
     risk_components := ⟨0, 0, 0, 0⟩, recommendations := [] },
   { filename := "b.py", risk_score := 1/50, gate_decision := Gate.PASS,
     risk_components := ⟨0, 0, 0, 0⟩, recommendations := [] }]

/-- The overall assessment produced from `twoFileStore`. -/
def twoFileOverall : OverallAssessment :=
  { files_assessed := 2, average_risk_score := 1/50,
    overall_gate_decision := Gate.PASS, gate_counts := ⟨2, 0, 0⟩ }

/-- An analysis report whose weighted total risk score is exactly 29.999. -/
def boundaryAnalysis : AnalysisReport := ⟨some ⟨some (29999/1500), some 0⟩, none⟩

/-- Diff statistics of an unchanged one-line file. -/
def boundaryStats : ChangeStats := ⟨some 0, some 1⟩

/-- The assessment of an empty analysis with no changes: all components 0. -/
def zeroAssessment : RiskAssessment :=
  { filename := "zero.py", risk_score := 0, gate_decision := Gate.PASS,
    risk_components := ⟨0, 0, 0, 0⟩,
    recommendations := ["✓ Low risk changes - safe to proceed"] }

/-!
Helper lemmas shared by the claim theorems.
-/

/-- Every per-issue severity weight lies in `[0, 1]`. -/
theorem issueWeight_bounds (issue : Issue) : 0 ≤ issueWeight issue ∧ issueWeight issue ≤ 1 := by
  unfold issueWeight
  rcases issue with ⟨_ | s⟩
  · simp [severity_scores, List.lookup]; norm_num
  · simp only [Option.getD_some]
    by_cases h1 : s = "critical"
    · simp [severity_scores, List.lookup, h1]
    by_cases h2 : s = "high"
    · simp [severity_scores, List.lookup, h2]; norm_num
    by_cases h3 : s = "medium"
    · simp [severity_scores, List.lookup, h3]; norm_num
    by_cases h4 : s = "low"
    · simp [severity_scores, List.lookup, h4]; norm_num
    by_cases h5 : s = "info"
    · simp [severity_scores, List.lookup, h5]; norm_num
    · have b1 : (s == "critical") = false := beq_eq_false_iff_ne.mpr h1
      have b2 : (s == "high") = false := beq_eq_false_iff_ne.mpr h2
      have b3 : (s == "medium") = false := beq_eq_false_iff_ne.mpr h3
      have b4 : (s == "low") = false := beq_eq_false_iff_ne.mpr h4
      have b5 : (s == "info") = false := beq_eq_false_iff_ne.mpr h5
      simp [severity_scores, List.lookup, b1, b2, b3, b4, b5]
      norm_num

/-- The complexity score is in `[0, 1]` for a non-negative average. -/
theorem assessComplexityRisk_mem (analysis : AnalysisReport)
    (havg : 0 ≤ (analysis.complexity.getD ⟨none, none⟩).average.getD 0) :
    0 ≤ assessComplexityRisk analysis ∧ assessComplexityRisk analysis ≤ 1 := by
  unfold assessComplexityRisk
  refine ⟨?_, min_le_right _ _⟩
  have h1 : 0 ≤ (analysis.complexity.getD ⟨none, none⟩).average.getD 0 / 20 :=
    div_nonneg havg (by norm_num)
  have h2 : (0 : ℚ) ≤
      ((analysis.complexity.getD ⟨none, none⟩).high_complexity_count.getD 0 : ℚ) * (1/10) := by
    positivity
  exact le_min (add_nonneg (le_min h1 zero_le_one) (le_min h2 (by norm_num))) zero_le_one

/-- The change-volume score succeeds and is in `[0, 1]` when the effective
original line count is at least 1. -/
theorem assessChangeVolumeRisk_mem (change_stats : ChangeStats)
    (ho : 1 ≤ change_stats.original_lines.getD 1) :
    ∃ cvr, assessChangeVolumeRisk change_stats = some cvr ∧ 0 ≤ cvr ∧ cvr ≤ 1 := by
  unfold assessChangeVolumeRisk
  have hne : change_stats.original_lines.getD 1 ≠ 0 := by omega
  rw [if_neg hne]
  refine ⟨_, rfl, ?_, min_le_right _ _⟩
  have h1 : (0 : ℚ) ≤ (change_stats.total_changes.getD 0 : ℚ) /
      (change_stats.original_lines.getD 1 : ℚ) := by positivity
  exact le_min h1 zero_le_one

/-- The critical-function score is always in `[0, 1]`. -/
theorem assessCriticalFunctionRisk_mem (ai_changes : List String) :
    0 ≤ assessCriticalFunctionRisk ai_changes ∧ assessCriticalFunctionRisk ai_changes ≤ 1 := by
  simp only [assessCriticalFunctionRisk]
  split_ifs with h
  · norm_num
  · refine ⟨?_, min_le_right _ _⟩
    have h1 : (0 : ℚ) ≤ ((ai_changes.filter isCriticalChange).length : ℚ) /
        (ai_changes.length : ℚ) := by positivity
    exact le_min h1 zero_le_one

/-- The issue-severity score is always in `[0, 1]`. -/
theorem assessIssueSeverityRisk_mem (analysis : AnalysisReport) :
    0 ≤ assessIssueSeverityRisk analysis ∧ assessIssueSeverityRisk analysis ≤ 1 := by
  simp only [assessIssueSeverityRisk]
  split_ifs with h
  · norm_num
  · refine ⟨?_, min_le_right _ _⟩
    have hsum : 0 ≤ ((analysis.issues.getD []).map issueWeight).sum := by
      apply List.sum_nonneg
      intro x hx
      obtain ⟨i, -, rfl⟩ := List.mem_map.mp hx
      exact (issueWeight_bounds i).1
    have h1 : (0 : ℚ) ≤ ((analysis.issues.getD []).map issueWeight).sum /
        ((analysis.issues.getD []).length : ℚ) := div_nonneg hsum (by positivity)
    exact le_min h1 zero_le_one

/-- The weighted total with the default weights is in `[0, 100]` when every
component is in `[0, 1]`. -/
theorem totalRiskW_mem {cr cvr cfr isr : ℚ}
    (h1 : 0 ≤ cr) (h1' : cr ≤ 1) (h2 : 0 ≤ cvr) (h2' : cvr ≤ 1)
    (h3 : 0 ≤ cfr) (h3' : cfr ≤ 1) (h4 : 0 ≤ isr) (h4' : isr ≤ 1) :
    0 ≤ totalRiskW RISK_WEIGHTS cr cvr cfr isr ∧
    totalRiskW RISK_WEIGHTS cr cvr cfr isr ≤ 100 := by
  unfold totalRiskW RISK_WEIGHTS
  constructor <;> nlinarith

/-- Python's round never moves a value by more than one half. -/
theorem pythonRound_bounds (y : ℚ) :
    y - 1/2 ≤ (pythonRound y : ℚ) ∧ (pythonRound y : ℚ) ≤ y + 1/2 := by
  unfold pythonRound
  have hfl : (⌊y⌋ : ℚ) ≤ y := Int.floor_le y
  have hfu : y < ⌊y⌋ + 1 := Int.lt_floor_add_one y
  split_ifs with h1 h2 h3 <;> constructor <;> push_cast <;> linarith

/-- Rounding to two decimals keeps a value of `[0, 100]` inside `[0, 100]`. -/
theorem round2_mem {x : ℚ} (h0 : 0 ≤ x) (h1 : x ≤ 100) :
    0 ≤ round2 x ∧ round2 x ≤ 100 := by
  obtain ⟨hb1, hb2⟩ := pythonRound_bounds (x * 100)
  have hlow : (0 : ℤ) ≤ pythonRound (x * 100) := by
    by_contra hneg
    push_neg at hneg
    have hle : pythonRound (x * 100) ≤ -1 := by omega
    have hleq : ((pythonRound (x * 100) : ℤ) : ℚ) ≤ ((-1 : ℤ) : ℚ) := by exact_mod_cast hle
    push_cast at hleq
    linarith
  have hhigh : pythonRound (x * 100) ≤ 10000 := by
    by_contra hg
    push_neg at hg
    have hge : (10001 : ℤ) ≤ pythonRound (x * 100) := by omega
    have hgeq : ((10001 : ℤ) : ℚ) ≤ ((pythonRound (x * 100) : ℤ) : ℚ) := by exact_mod_cast hge
    push_cast at hgeq
    linarith
  unfold round2
  constructor
  · exact div_nonneg (by exact_mod_cast hlow) (by norm_num)
  · rw [div_le_iff₀ (by norm_num : (0 : ℚ) < 100)]
    have hq : ((pythonRound (x * 100) : ℤ) : ℚ) ≤ ((10000 : ℤ) : ℚ) := by exact_mod_cast hhigh
    push_cast at hq
    linarith

/-- A gate count is positive exactly when some stored assessment carries
that gate decision. -/
theorem gateCount_pos (store : List RiskAssessment) (g : Gate) :
    0 < (store.filter fun a => a.gate_decision == g).length ↔
      ∃ a ∈ store, a.gate_decision = g := by
  rw [List.length_pos]
  constructor
  · intro h
    obtain ⟨a, ha⟩ := List.exists_mem_of_ne_nil _ h
    rw [List.mem_filter] at ha
    exact ⟨a, ha.1, by simpa using ha.2⟩
  · rintro ⟨a, ha, hg⟩
    intro hnil
    have hm : a ∈ store.filter (fun a => a.gate_decision == g) :=
      List.mem_filter.mpr ⟨ha, by simp [hg]⟩
    rw [hnil] at hm
    exact absurd hm (List.not_mem_nil a)

/-!
Claim theorems.
-/

/-- C1: the spec requires the change-volume scorer to return maximal risk
1.0 on `original_lines = 0` instead of crashing, but the dictionary default
of `_assess_change_volume_risk` only covers a missing key: with the key
explicitly 0 (as produced by `_calculate_diff_stats` for an empty original
file) the Python division `total_changes / original_lines` raises
`ZeroDivisionError` (modelled as `none`), while a missing key falls back to
divisor 1 and yields 1.0 for 5 changes. -/
theorem c1_zero_original_lines_crash :
    assessChangeVolumeRisk { total_changes := some 5, original_lines := some 0 } = none ∧
    assessChangeVolumeRisk { total_changes := some 5, original_lines := none } = some 1 := by
  refine ⟨rfl, ?_⟩
  norm_num [assessChangeVolumeRisk]

/-- C3: with the default thresholds `PASS = 30` and `WARN = 70`, the gate
decision is PASS exactly below 30, WARN exactly on `[30, 70)` and BLOCK
exactly from 70 on; in particular a score of exactly 30 is WARN and exactly
70 is BLOCK. -/
theorem c3_gate_thresholds :
    RISK_GATES.PASS = 30 ∧ RISK_GATES.WARN = 70 ∧
    (∀ s : ℚ,
      (makeGateDecision s = Gate.PASS ↔ s < 30) ∧
      (makeGateDecision s = Gate.WARN ↔ 30 ≤ s ∧ s < 70) ∧
      (makeGateDecision s = Gate.BLOCK ↔ 70 ≤ s)) ∧
    makeGateDecision 30 = Gate.WARN ∧ makeGateDecision 70 = Gate.BLOCK := by
  refine ⟨rfl, rfl, fun s => ?_, by norm_num [makeGateDecision, RISK_GATES],
    by norm_num [makeGateDecision, RISK_GATES]⟩
  unfold makeGateDecision
  rw [show RISK_GATES.PASS = (30 : ℚ) from rfl, show RISK_GATES.WARN = (70 : ℚ) from rfl]
  split_ifs with h1 h2
  · refine ⟨?_, ?_, ?_⟩ <;> simp
    · exact h1
    · intro h; linarith
    · linarith
  · refine ⟨?_, ?_, ?_⟩ <;> simp
    · linarith
    · exact ⟨by linarith, h2⟩
    · linarith
  · refine ⟨?_, ?_, ?_⟩ <;> simp
    · linarith
    · intro h; linarith
    · linarith

/-- C5: the complexity score is
`min(min(average/20, 1) + min(high_complexity_count * 0.1, 0.3), 1)`; for
`average = 10` and `high_complexity_count = 1` it equals 0.6, which with
weight 0.3 contributes exactly 18 points to the 0-100 total. -/
theorem c5_complexity_formula :
    (∀ (c : ComplexityInfo) (issues : Option (List Issue)),
        assessComplexityRisk ⟨some c, issues⟩ =
          min (min (c.average.getD 0 / 20) 1 +
               min ((c.high_complexity_count.getD 0 : ℚ) * (1/10)) (3/10)) 1) ∧
    assessComplexityRisk ⟨some ⟨some 10, some 1⟩, none⟩ = 3/5 ∧
    assessComplexityRisk ⟨some ⟨some 10, some 1⟩, none⟩ * RISK_WEIGHTS.complexity_change * 100
      = 18 := by
  refine ⟨fun c issues => rfl, ?_, ?_⟩ <;> norm_num [assessComplexityRisk, RISK_WEIGHTS]

/-- C7: the critical-function scorer returns 0 for an empty change list
without raising, and otherwise `min(hits / length, 1)` where `hits` counts
the descriptions containing one of the ten critical keywords as a
case-insensitive substring; "Updated Password Hashing" matches, a neutral
rename does not. -/
theorem c7_critical_function :
    assessCriticalFunctionRisk [] = 0 ∧
    (∀ ai_changes : List String, ai_changes ≠ [] →
        assessCriticalFunctionRisk ai_changes =
          min (((ai_changes.filter isCriticalChange).length : ℚ) / (ai_changes.length : ℚ)) 1) ∧
    (∀ change : String,
        isCriticalChange change =
          criticalKeywords.any fun keyword =>
            hasSubstring keyword.data (change.data.map Char.toLower)) ∧
    isCriticalChange "Updated Password Hashing" = true ∧
    isCriticalChange "renamed a variable" = false := by
  refine ⟨rfl, ?_, fun change => rfl, by decide, by decide⟩
  intro ai_changes h
  unfold assessCriticalFunctionRisk
  simp [h]

/-- C7 witness: the scorer evaluated on a concrete two-element list. -/
theorem c7_critical_function_witness :
    assessCriticalFunctionRisk ["Updated Password Hashing", "renamed a variable"] =
      min (((["Updated Password Hashing", "renamed a variable"].filter
        isCriticalChange).length : ℚ) /
        ((["Updated Password Hashing", "renamed a variable"] : List String).length : ℚ)) 1 :=
  c7_critical_function.2.1 ["Updated Password Hashing", "renamed a variable"] (by simp)

/-- C2 counterexample: with a weight table summing to 2 instead of 1, the
configuration load still succeeds and a per-file assessment is still
produced, so no fail-fast validation of the weight sum exists. -/
theorem c2_weight_validation_counterexample :
    misSummingWeights.sum = 2 ∧ (2 : ℚ) ≠ 1 ∧
    loadRiskWeights misSummingWeights = Except.ok misSummingWeights ∧
    (assessRiskW misSummingWeights "app.py" ⟨none, none⟩ ⟨some 5, some 10⟩ []).isSome = true := by
  refine ⟨by norm_num [misSummingWeights, RiskWeights.sum], by norm_num, rfl, ?_⟩
  have hcv : assessChangeVolumeRisk ⟨some 5, some 10⟩ = some (1/2) := by
    norm_num [assessChangeVolumeRisk]
  unfold assessRiskW
  rw [hcv]
  rfl

/-- C2 amended: the default weights do sum to 1, but the configuration load
performs no validation at all — any weight table loads successfully and
assessment proceeds with it. -/
theorem c2_weight_validation_amended :
    RISK_WEIGHTS.sum = 1 ∧
    (∀ w : RiskWeights, loadRiskWeights w = Except.ok w) ∧
    (∀ (w : RiskWeights) (filename : String) (analysis : AnalysisReport) (t o : ℕ)
        (ai_changes : List String), o ≠ 0 →
        (assessRiskW w filename analysis ⟨some t, some o⟩ ai_changes).isSome = true) := by
  refine ⟨by norm_num [RISK_WEIGHTS, RiskWeights.sum], fun w => rfl, ?_⟩
  intro w filename analysis t o ai_changes ho
  unfold assessRiskW
  rw [show assessChangeVolumeRisk ⟨some t, some o⟩ = some (min ((t : ℚ) / (o : ℚ)) 1) from by
    simp [assessChangeVolumeRisk, ho]]
  rfl

/-- C2 witness: an assessment goes through with the mis-summing weights. -/
theorem c2_weight_validation_amended_witness :
    (assessRiskW misSummingWeights "w.py" ⟨none, none⟩ ⟨some 3, some 4⟩ []).isSome = true :=
  c2_weight_validation_amended.2.2 misSummingWeights "w.py" ⟨none, none⟩ 3 4 [] (by decide)

/-- C6: the issue-severity score is 0 for an empty issue list, otherwise
the mean of the per-issue weights capped at 1; a missing severity key
defaults to the `low` entry and an unknown severity string to the
dictionary default, both 0.2, never 0; the five table entries carry the
weights 1.0, 0.8, 0.5, 0.2 and 0.1. -/
theorem c6_issue_severity :
    (∀ analysis : AnalysisReport, analysis.issues.getD [] = [] →
        assessIssueSeverityRisk analysis = 0) ∧
    (∀ (complexity : Option ComplexityInfo) (issues : List Issue), issues ≠ [] →
        assessIssueSeverityRisk ⟨complexity, some issues⟩ =
          min ((issues.map issueWeight).sum / (issues.length : ℚ)) 1) ∧
    (∀ issue : Issue, issue.severity = none → issueWeight issue = 1/5) ∧
    (∀ s : String, s ∉ ["critical", "high", "medium", "low", "info"] →
        issueWeight ⟨some s⟩ = 1/5) ∧
    issueWeight ⟨some "critical"⟩ = 1 ∧ issueWeight ⟨some "high"⟩ = 4/5 ∧
    issueWeight ⟨some "medium"⟩ = 1/2 ∧ issueWeight ⟨some "low"⟩ = 1/5 ∧
    issueWeight ⟨some "info"⟩ = 1/10 ∧ (1/5 : ℚ) ≠ 0 := by
  refine ⟨?_, ?_, ?_, ?_, ?_, ?_, ?_, ?_, ?_, by norm_num⟩
  · intro analysis h
    unfold assessIssueSeverityRisk
    simp [h]
  · intro complexity issues h
    unfold assessIssueSeverityRisk
    simp [h]
  · intro issue h
    simp [issueWeight, h, severity_scores, List.lookup]
  · intro s h
    simp only [List.mem_cons, List.mem_singleton, not_or] at h
    obtain ⟨h1, h2, h3, h4, h5, -⟩ := h
    have b1 : (s == "critical") = false := beq_eq_false_iff_ne.mpr h1
    have b2 : (s == "high") = false := beq_eq_false_iff_ne.mpr h2
    have b3 : (s == "medium") = false := beq_eq_false_iff_ne.mpr h3
    have b4 : (s == "low") = false := beq_eq_false_iff_ne.mpr h4
    have b5 : (s == "info") = false := beq_eq_false_iff_ne.mpr h5
    simp [issueWeight, severity_scores, List.lookup, b1, b2, b3, b4, b5]
  all_goals simp [issueWeight, severity_scores, List.lookup]

/-- C6 witness: the scorer and the weight table on concrete inputs. -/
theorem c6_issue_severity_witness :
    assessIssueSeverityRisk ⟨none, none⟩ = 0 ∧
    assessIssueSeverityRisk ⟨none, some [⟨none⟩]⟩ =
      min ((([⟨none⟩] : List Issue).map issueWeight).sum /
        ((([⟨none⟩] : List Issue).length : ℕ) : ℚ)) 1 ∧
    issueWeight ⟨none⟩ = 1/5 ∧
    issueWeight ⟨some "weird"⟩ = 1/5 :=
  ⟨c6_issue_severity.1 ⟨none, none⟩ rfl,
   c6_issue_severity.2.1 none [⟨none⟩] (by simp),
   c6_issue_severity.2.2.1 ⟨none⟩ rfl,
   c6_issue_severity.2.2.2.1 "weird" (by simp)⟩

/-- C8: the complexity score is monotone in the complexity average, the
change-volume score is monotone in the change count at a fixed non-zero
original line count, and the critical-function score is monotone in the
number of keyword matches at a fixed list length. -/
theorem c8_monotonicity :
    (∀ (hcc : Option ℕ) (issues : Option (List Issue)) (a a' : ℚ), a ≤ a' →
        assessComplexityRisk ⟨some ⟨some a, hcc⟩, issues⟩ ≤
          assessComplexityRisk ⟨some ⟨some a', hcc⟩, issues⟩) ∧
    (∀ o t t' : ℕ, o ≠ 0 → t ≤ t' →
        (assessChangeVolumeRisk ⟨some t, some o⟩).getD 0 ≤
          (assessChangeVolumeRisk ⟨some t', some o⟩).getD 0) ∧
    (∀ l l' : List String, l.length = l'.length →
        (l.filter isCriticalChange).length ≤ (l'.filter isCriticalChange).length →
        assessCriticalFunctionRisk l ≤ assessCriticalFunctionRisk l') := by
  refine ⟨?_, ?_, ?_⟩
  · intro hcc issues a a' h
    unfold assessComplexityRisk
    simp only [Option.getD_some]
    gcongr
  · intro o t t' ho ht
    unfold assessChangeVolumeRisk
    simp only [Option.getD_some, ho, if_false]
    have hpos : (0 : ℚ) < (o : ℚ) := Nat.cast_pos.mpr (Nat.pos_of_ne_zero ho)
    gcongr
  · intro l l' hlen hcnt
    unfold assessCriticalFunctionRisk
    rcases l with _ | ⟨x, xs⟩
    · rcases l' with _ | ⟨y, ys⟩
      · simp
      · simp at hlen
    · rcases l' with _ | ⟨y, ys⟩
      · simp at hlen
      · simp only [List.isEmpty_cons, if_false]
        rw [hlen]
        have hpos : (0 : ℚ) < ((y :: ys).length : ℚ) := by
          exact_mod_cast Nat.succ_pos ys.length
        exact min_le_min
          ((div_le_div_iff_of_pos_right hpos).mpr (by exact_mod_cast hcnt)) le_rfl

/-- C8 witness: the three monotonicity statements at concrete inputs. -/
theorem c8_monotonicity_witness :
    assessComplexityRisk ⟨some ⟨some 5, some 0⟩, none⟩ ≤
      assessComplexityRisk ⟨some ⟨some 8, some 0⟩, none⟩ ∧
    (assessChangeVolumeRisk ⟨some 2, some 10⟩).getD 0 ≤
      (assessChangeVolumeRisk ⟨some 3, some 10⟩).getD 0 ∧
    assessCriticalFunctionRisk ["renamed a variable"] ≤
      assessCriticalFunctionRisk ["updated auth logic"] :=
  ⟨c8_monotonicity.1 (some 0) none 5 8 (by norm_num),
   c8_monotonicity.2.1 10 2 3 (by decide) (by decide),
   c8_monotonicity.2.2 ["renamed a variable"] ["updated auth logic"] rfl (by decide)⟩

/-- C4: for any analysis with a non-negative complexity average and change
statistics with at least one original line, every component score is in
`[0, 1]` and the stored risk score is in `[0, 100]`. -/
theorem c4_score_bounds (analysis : AnalysisReport) (change_stats : ChangeStats)
    (ai_changes : List String)
    (havg : 0 ≤ (analysis.complexity.getD ⟨none, none⟩).average.getD 0)
    (ho : 1 ≤ change_stats.original_lines.getD 1) :
    (0 ≤ assessComplexityRisk analysis ∧ assessComplexityRisk analysis ≤ 1) ∧
    (∃ cvr, assessChangeVolumeRisk change_stats = some cvr ∧ 0 ≤ cvr ∧ cvr ≤ 1) ∧
    (0 ≤ assessCriticalFunctionRisk ai_changes ∧ assessCriticalFunctionRisk ai_changes ≤ 1) ∧
    (0 ≤ assessIssueSeverityRisk analysis ∧ assessIssueSeverityRisk analysis ≤ 1) ∧
    (∀ (filename : String) (a : RiskAssessment),
        assessRisk filename analysis change_stats ai_changes = some a →
        0 ≤ a.risk_score ∧ a.risk_score ≤ 100) := by
  obtain ⟨h1, h1'⟩ := assessComplexityRisk_mem analysis havg
  obtain ⟨cvr, hcvr, h2, h2'⟩ := assessChangeVolumeRisk_mem change_stats ho
  obtain ⟨h3, h3'⟩ := assessCriticalFunctionRisk_mem ai_changes
  obtain ⟨h4, h4'⟩ := assessIssueSeverityRisk_mem analysis
  refine ⟨⟨h1, h1'⟩, ⟨cvr, hcvr, h2, h2'⟩, ⟨h3, h3'⟩, ⟨h4, h4'⟩, ?_⟩
  intro filename a ha
  unfold assessRisk assessRiskW at ha
  rw [hcvr] at ha
  injection ha with h
  subst h
  obtain ⟨ht, ht'⟩ := totalRiskW_mem h1 h1' h2 h2' h3 h3' h4 h4'
  exact round2_mem ht ht'

/-- C4 witness: the bounds at an empty analysis and default statistics. -/
theorem c4_score_bounds_witness :
    (0 ≤ assessComplexityRisk ⟨none, none⟩ ∧ assessComplexityRisk ⟨none, none⟩ ≤ 1) ∧
    (∃ cvr, assessChangeVolumeRisk ⟨none, none⟩ = some cvr ∧ 0 ≤ cvr ∧ cvr ≤ 1) ∧
    (0 ≤ assessCriticalFunctionRisk [] ∧ assessCriticalFunctionRisk [] ≤ 1) ∧
    (0 ≤ assessIssueSeverityRisk ⟨none, none⟩ ∧ assessIssueSeverityRisk ⟨none, none⟩ ≤ 1) ∧
    (∀ (filename : String) (a : RiskAssessment),
        assessRisk filename ⟨none, none⟩ ⟨none, none⟩ [] = some a →
        0 ≤ a.risk_score ∧ a.risk_score ≤ 100) :=
  c4_score_bounds ⟨none, none⟩ ⟨none, none⟩ [] (le_refl 0) (le_refl 1)

/-- C9 counterexample: on a store with rounded scores 0.01 and 0.02 the
reported `average_risk_score` is 0.02, while the arithmetic mean of the
stored scores is 0.015 — the reported average is the rounded mean, not the
mean itself. -/
theorem c9_average_counterexample :
    (getOverallAssessment twoFileStore).map (fun o => o.average_risk_score) = some (1/50) ∧
    (twoFileStore.map fun a => a.risk_score).sum / (twoFileStore.length : ℚ) = 3/200 ∧
    (1/50 : ℚ) ≠ 3/200 := by
  refine ⟨?_, by norm_num [twoFileStore], by norm_num⟩
  simp only [getOverallAssessment, twoFileStore]
  norm_num [round2, pythonRound]

/-- C9 amended: the reducer returns the empty result on an empty store and
never raises; otherwise the overall gate decision is BLOCK when any file is
BLOCK, else WARN when any file is WARN, else PASS, independent of counts,
and the reported average is the arithmetic mean of the stored scores
rounded to two decimal places. -/
theorem c9_overall_amended :
    getOverallAssessment [] = none ∧
    (∀ (store : List RiskAssessment) (o : OverallAssessment),
        getOverallAssessment store = some o →
        o.files_assessed = store.length ∧
        o.average_risk_score = round2 ((store.map fun a => a.risk_score).sum / (store.length : ℚ)) ∧
        (o.overall_gate_decision = Gate.BLOCK ↔ ∃ a ∈ store, a.gate_decision = Gate.BLOCK) ∧
        (o.overall_gate_decision = Gate.WARN ↔
          (¬∃ a ∈ store, a.gate_decision = Gate.BLOCK) ∧ ∃ a ∈ store, a.gate_decision = Gate.WARN) ∧
        (o.overall_gate_decision = Gate.PASS ↔
          (¬∃ a ∈ store, a.gate_decision = Gate.BLOCK) ∧
            ¬∃ a ∈ store, a.gate_decision = Gate.WARN)) := by
  refine ⟨rfl, ?_⟩
  intro store o ho
  by_cases hemp : store.isEmpty
  · rw [getOverallAssessment, if_pos hemp] at ho
    exact absurd ho (by simp)
  · rw [getOverallAssessment, if_neg hemp] at ho
    injection ho with h
    subst h
    refine ⟨rfl, rfl, ?_, ?_, ?_⟩
    · dsimp only
      split_ifs with hB hW
      · exact iff_of_true rfl ((gateCount_pos store Gate.BLOCK).mp hB)
      · exact iff_of_false (by simp) (fun hex => hB ((gateCount_pos store Gate.BLOCK).mpr hex))
      · exact iff_of_false (by simp) (fun hex => hB ((gateCount_pos store Gate.BLOCK).mpr hex))
    · dsimp only
      split_ifs with hB hW
      · exact iff_of_false (by simp) (fun h => h.1 ((gateCount_pos store Gate.BLOCK).mp hB))
      · exact iff_of_true rfl ⟨fun hex => hB ((gateCount_pos store Gate.BLOCK).mpr hex),
          (gateCount_pos store Gate.WARN).mp hW⟩
      · exact iff_of_false (by simp) (fun h => hW ((gateCount_pos store Gate.WARN).mpr h.2))
    · dsimp only
      split_ifs with hB hW
      · exact iff_of_false (by simp) (fun h => h.1 ((gateCount_pos store Gate.BLOCK).mp hB))
      · exact iff_of_false (by simp) (fun h => h.2 ((gateCount_pos store Gate.WARN).mp hW))
      · exact iff_of_true rfl ⟨fun hex => hB ((gateCount_pos store Gate.BLOCK).mpr hex),
          fun hex => hW ((gateCount_pos store Gate.WARN).mpr hex)⟩

/-- C9 witness: the amended reducer facts at the concrete two-file store. -/
theorem c9_overall_amended_witness :
    twoFileOverall.files_assessed = twoFileStore.length ∧
    twoFileOverall.average_risk_score =
      round2 ((twoFileStore.map fun a => a.risk_score).sum / (twoFileStore.length : ℚ)) ∧
    (twoFileOverall.overall_gate_decision = Gate.BLOCK ↔
      ∃ a ∈ twoFileStore, a.gate_decision = Gate.BLOCK) ∧
    (twoFileOverall.overall_gate_decision = Gate.WARN ↔
      (¬∃ a ∈ twoFileStore, a.gate_decision = Gate.BLOCK) ∧
        ∃ a ∈ twoFileStore, a.gate_decision = Gate.WARN) ∧
    (twoFileOverall.overall_gate_decision = Gate.PASS ↔
      (¬∃ a ∈ twoFileStore, a.gate_decision = Gate.BLOCK) ∧
        ¬∃ a ∈ twoFileStore, a.gate_decision = Gate.WARN) :=
  c9_overall_amended.2 twoFileStore twoFileOverall (by
    have e1 : (Gate.PASS == Gate.BLOCK) = false := rfl
    have e2 : (Gate.PASS == Gate.WARN) = false := rfl
    have e3 : (Gate.PASS == Gate.PASS) = true := rfl
    simp only [getOverallAssessment, twoFileStore, twoFileOverall, List.filter, e1, e2, e3,
      List.isEmpty_cons, List.length_cons, List.length_nil, List.map_cons, List.map_nil,
      List.sum_cons, List.sum_nil, Bool.false_eq_true, if_false, if_true]
    norm_num [round2, pythonRound])

/-- C10: the stored gate decision is computed from the unrounded weighted
total, while the stored risk score is that total rounded to two decimals;
for an input with unrounded total 29.999 the stored assessment carries
`risk_score = 30.0` together with `gate_decision = PASS`, although the
threshold table maps 30.0 to WARN. -/
theorem c10_gate_uses_unrounded_score :
    (∀ (filename : String) (analysis : AnalysisReport) (change_stats : ChangeStats)
        (ai_changes : List String) (a : RiskAssessment) (cvr : ℚ),
        assessChangeVolumeRisk change_stats = some cvr →
        assessRisk filename analysis change_stats ai_changes = some a →
        a.gate_decision = makeGateDecision (totalRiskW RISK_WEIGHTS (assessComplexityRisk analysis)
            cvr (assessCriticalFunctionRisk ai_changes) (assessIssueSeverityRisk analysis)) ∧
        a.risk_score = round2 (totalRiskW RISK_WEIGHTS (assessComplexityRisk analysis)
            cvr (assessCriticalFunctionRisk ai_changes) (assessIssueSeverityRisk analysis))) ∧
    (∃ a, assessRisk "boundary.py" boundaryAnalysis boundaryStats [] = some a ∧
        a.risk_score = 30 ∧ a.gate_decision = Gate.PASS ∧
        makeGateDecision a.risk_score = Gate.WARN) ∧
    assessChangeVolumeRisk boundaryStats = some 0 ∧
    totalRiskW RISK_WEIGHTS (assessComplexityRisk boundaryAnalysis) 0
        (assessCriticalFunctionRisk []) (assessIssueSeverityRisk boundaryAnalysis) = 29999/1000 ∧
    (29995/1000 : ℚ) ≤ 29999/1000 ∧ (29999/1000 : ℚ) < 30 := by
  have hcr : assessComplexityRisk boundaryAnalysis = 29999/30000 := by
    norm_num [assessComplexityRisk, boundaryAnalysis]
  have hcv : assessChangeVolumeRisk boundaryStats = some 0 := by
    norm_num [assessChangeVolumeRisk, boundaryStats]
  have hcf : assessCriticalFunctionRisk ([] : List String) = 0 := rfl
  have his : assessIssueSeverityRisk boundaryAnalysis = 0 := rfl
  have htot : totalRiskW RISK_WEIGHTS (assessComplexityRisk boundaryAnalysis) 0
      (assessCriticalFunctionRisk []) (assessIssueSeverityRisk boundaryAnalysis) = 29999/1000 := by
    rw [hcr, hcf, his]
    norm_num [totalRiskW, RISK_WEIGHTS]
  have hround : round2 (29999/1000) = 30 := by norm_num [round2, pythonRound]
  have hgate : makeGateDecision (29999/1000) = Gate.PASS := by
    norm_num [makeGateDecision, RISK_GATES]
  have hgate30 : makeGateDecision 30 = Gate.WARN := by
    norm_num [makeGateDecision, RISK_GATES]
  have hgen : ∀ (filename : String) (analysis : AnalysisReport) (change_stats : ChangeStats)
      (ai_changes : List String) (a : RiskAssessment) (cvr : ℚ),
      assessChangeVolumeRisk change_stats = some cvr →
      assessRisk filename analysis change_stats ai_changes = some a →
      a.gate_decision = makeGateDecision (totalRiskW RISK_WEIGHTS (assessComplexityRisk analysis)
          cvr (assessCriticalFunctionRisk ai_changes) (assessIssueSeverityRisk analysis)) ∧
      a.risk_score = round2 (totalRiskW RISK_WEIGHTS (assessComplexityRisk analysis)
          cvr (assessCriticalFunctionRisk ai_changes) (assessIssueSeverityRisk analysis)) := by
    intro filename analysis change_stats ai_changes a cvr hcv' ha
    unfold assessRisk assessRiskW at ha
    rw [hcv'] at ha
    injection ha with h
    subst h
    exact ⟨rfl, rfl⟩
  refine ⟨hgen, ?_, hcv, htot, by norm_num, by norm_num⟩
  have hex : ∃ a, assessRisk "boundary.py" boundaryAnalysis boundaryStats [] = some a := by
    unfold assessRisk assessRiskW
    rw [hcv]
    exact ⟨_, rfl⟩
  obtain ⟨a, ha⟩ := hex
  obtain ⟨hg, hs⟩ := hgen _ _ _ _ _ _ hcv ha
  exact ⟨a, ha, by rw [hs, htot, hround], by rw [hg, htot, hgate],
    by rw [hs, htot, hround, hgate30]⟩

/-- C10 witness: the relation between stored fields and the unrounded total
at a concrete all-zero input. -/
theorem c10_gate_uses_unrounded_score_witness :
    zeroAssessment.gate_decision =
      makeGateDecision (totalRiskW RISK_WEIGHTS (assessComplexityRisk ⟨none, none⟩) 0
        (assessCriticalFunctionRisk []) (assessIssueSeverityRisk ⟨none, none⟩)) ∧
    zeroAssessment.risk_score =
      round2 (totalRiskW RISK_WEIGHTS (assessComplexityRisk ⟨none, none⟩) 0
        (assessCriticalFunctionRisk []) (assessIssueSeverityRisk ⟨none, none⟩)) :=
  c10_gate_uses_unrounded_score.1 "zero.py" ⟨none, none⟩ ⟨some 0, some 1⟩ [] zeroAssessment 0
    (by norm_num [assessChangeVolumeRisk])
    (by
      unfold assessRisk assessRiskW
      rw [show assessChangeVolumeRisk ⟨some 0, some 1⟩ = some 0 from by
        norm_num [assessChangeVolumeRisk]]
      norm_num [zeroAssessment, assessComplexityRisk, assessCriticalFunctionRisk,
        assessIssueSeverityRisk, totalRiskW, RISK_WEIGHTS, round2, pythonRound,
        makeGateDecision, RISK_GATES, generateRecommendations, isMediumHighIssue])

end IRMS
